import Mathlib

/-!
Shallow embedding of `src/main.py` (a Flask digital-goods storefront):
data model (SQLAlchemy tables as Lean structures, the database as lists of
rows), and the request handlers (`index`, `products`, `product_detail`,
`login`, `register`, the three `/admin*` routes) as pure functions from a
database state, session and request parameters to a response and updated
state.  Machine details that do not affect the claims are modelled as
follows: timestamps (`datetime.utcnow()`) are a `Nat` clock passed in;
SQL `Float` prices are integers (the claims only concern their sign and
verbatim storage); the random salt of password hashing is a `Nat`
parameter.
-/

/-- A row of the `User` table (`src/main.py` lines 21-31). -/
structure DUser where
  id : Nat
  username : String
  email : String
  password : String
  first_name : Option String
  last_name : Option String
  is_admin : Bool
  loyalty_points : Int
  created_at : Nat
  last_login : Option Nat
deriving DecidableEq, Repr

/-- A row of the `Category` table (`src/main.py` lines 33-37). -/
structure DCategory where
  id : Nat
  name : String
  description : Option String
deriving DecidableEq, Repr

/-- A row of the `Product` table (`src/main.py` lines 39-49). -/
structure DProduct where
  id : Nat
  name : String
  description : Option String
  price : Int
  file_path : Option String
  thumbnail : Option String
  category_id : Option Nat
  is_active : Bool
  created_at : Nat
deriving DecidableEq, Repr

/-- The database state: the tables the claims touch, plus autoincrement
counters for the primary keys assigned on insert. -/
structure Db where
  users : List DUser
  categories : List DCategory
  products : List DProduct
  nextUserId : Nat
  nextProductId : Nat
deriving DecidableEq, Repr

/-- The session: `session['user_id']` when present (`src/main.py` uses the
session only through this key and the cart, which no claim touches). -/
abbrev Session := Option Nat

/-- A flash message: text and Bootstrap category, as emitted by `flash(msg, cat)`. -/
abbrev Flash := String × String

/-- The observable response of a handler: an HTTP 404, a redirect to an
endpoint (`redirect(url_for(ep))`), or a rendered template with its
context data `α`; both non-404 forms carry the flash messages the handler
emitted during the request. -/
inductive Resp (α : Type) where
  | notFound
  | redirect (endpoint : String) (flashes : List Flash)
  | render (template : String) (data : α) (flashes : List Flash)
deriving DecidableEq, Repr

/-- Modelled from the spec: `werkzeug.security.generate_password_hash`
(not part of this repository's sources) produces a salted hash string of
the form `method$salt$digest`.  The digest is modelled as the password
itself — the claims need only that checking agrees with generation and
that the result is not the raw password — and the random salt as a run of
`s` characters of the given length. -/
def generate_password_hash (salt : Nat) (pw : String) : String :=
  "pbkdf2:sha256:600000" ++ "$" ++ String.mk (List.replicate salt 's') ++ "$" ++ pw

/-- Split a character list at its first `'$'`: `some (before, after)`,
or `none` when no `'$'` occurs.  Models werkzeug's parse of the stored
`method$salt$digest` string. -/
def splitDollar : List Char → Option (List Char × List Char)
  | [] => none
  | c :: cs =>
    if c = '$' then some ([], cs)
    else match splitDollar cs with
      | none => none
      | some (a, b) => some (c :: a, b)

/-- Modelled from the spec: `werkzeug.security.check_password_hash stored pw`
parses `stored` as `method$salt$digest` and succeeds exactly when the
method is recognised and the digest matches the candidate password
(digest modelled as the password itself, see `generate_password_hash`).
A stored value that does not parse as a hash — in particular a raw
password — never verifies. -/
def check_password_hash (stored pw : String) : Bool :=
  match splitDollar stored.data with
  | none => false
  | some (m, rest) =>
    match splitDollar rest with
    | none => false
    | some (_salt, digest) =>
      m == "pbkdf2:sha256:600000".data && digest == pw.data

/-- `Query.paginate(page=page, per_page=12)` of Flask-SQLAlchemy with its
default `error_out=True`: 404 (`none`) when `page < 1` or when the page
slice is empty on a page other than 1; otherwise the 12-element slice. -/
def paginate (items : List α) (page : Int) : Option (List α) :=
  if page < 1 then none
  else
    let slice := (items.drop ((page - 1).toNat * 12)).take 12
    if slice.isEmpty && page != 1 then none else some slice

/-- The ordering `ORDER BY created_at DESC`: `a` comes no later than `b`
when `a` was created no earlier. -/
def createdDesc (a b : DProduct) : Prop := b.created_at ≤ a.created_at

instance : DecidableRel createdDesc :=
  fun a b => inferInstanceAs (Decidable (b.created_at ≤ a.created_at))

instance : IsTotal DProduct createdDesc :=
  ⟨fun a b => le_total b.created_at a.created_at⟩

instance : IsTrans DProduct createdDesc :=
  ⟨fun _ _ _ h1 h2 => le_trans h2 h1⟩

/-- Sort products by `created_at` descending (`order_by(Product.created_at.desc())`);
a stable sort models the SQL ordering deterministically. -/
def sortByCreatedDesc (l : List DProduct) : List DProduct :=
  l.insertionSort createdDesc

/-- `GET /` (`index`, `src/main.py` lines 114-118): the 8 most recently
created active products and all categories. -/
def index (db : Db) : Resp (List DProduct × List DCategory) :=
  let featured_products := (sortByCreatedDesc (db.products.filter (·.is_active))).take 8
  let categories := db.categories
  .render "index.html" (featured_products, categories) []

/-- `GET /products` (`products`, `src/main.py` lines 120-133).
`category` is the query parameter parsed with `type=int` (`none` when
absent or unparsable); `if category_id:` is Python truthiness, so `0`
takes the unfiltered branch.  In the filtered branch the source runs
`paginate` before `get_or_404`, but both failures yield a 404. -/
def products (db : Db) (category : Option Int) (page : Int) :
    Resp (List DProduct × String) :=
  match category with
  | some cid =>
    if cid != 0 then
      match paginate (db.products.filter
          (fun p => p.is_active && (p.category_id.map Int.ofNat) == some cid)) page with
      | none => .notFound
      | some items =>
        match db.categories.find? (fun c => Int.ofNat c.id == cid) with
        | none => .notFound
        | some cat => .render "products.html" (items, "منتجات " ++ cat.name) []
    else
      match paginate (db.products.filter (·.is_active)) page with
      | none => .notFound
      | some items => .render "products.html" (items, "جميع المنتجات") []
  | none =>
    match paginate (db.products.filter (·.is_active)) page with
    | none => .notFound
    | some items => .render "products.html" (items, "جميع المنتجات") []

/-- `GET /product/<int:product_id>` (`product_detail`, `src/main.py`
lines 135-141): 404 when absent, else the product plus up to 4 active
products of the same category, excluding the product itself.
(`Product.category_id == product.category_id` with a `None` value becomes
`IS NULL` in SQLAlchemy, which `Option` equality models.) -/
def product_detail (db : Db) (product_id : Nat) :
    Resp (DProduct × List DProduct) :=
  match db.products.find? (fun p => p.id == product_id) with
  | none => .notFound
  | some product =>
    let related_products := (db.products.filter
      (fun p => p.category_id == product.category_id && p.id != product.id
        && p.is_active)).take 4
    .render "product_detail.html" (product, related_products) []

/-- `POST /login` (`login`, `src/main.py` lines 143-162): look the user up
by email, verify the hash; on success store the id in the session, stamp
`last_login` with the clock and redirect admins to the dashboard, others
home; on failure flash the generic invalid-credentials message and
re-render the login page. -/
def login_post (db : Db) (sess : Session) (clock : Nat)
    (email password : String) : Resp Unit × Db × Session :=
  let failure : Resp Unit × Db × Session :=
    (.render "login.html" ()
      [("البريد الإلكتروني أو كلمة المرور غير صحيحة", "danger")], db, sess)
  match db.users.find? (fun u => u.email == email) with
  | some user =>
    if check_password_hash user.password password then
      let db' := { db with users := (db.users.map
        (fun v => if v.id == user.id then { v with last_login := some clock } else v)) }
      if user.is_admin then (.redirect "admin_dashboard" [], db', some user.id)
      else (.redirect "index" [], db', some user.id)
    else failure
  | none => failure

/-- `POST /register` (`register`, `src/main.py` lines 164-197): reject on
password mismatch or an existing user with the same username or email;
otherwise insert the new user with a salted password hash and redirect to
login. -/
def register_post (db : Db) (clock salt : Nat)
    (username email password confirm_password : String)
    (first_name last_name : Option String) : Resp Unit × Db :=
  if password != confirm_password then
    (.redirect "register" [("كلمات المرور غير متطابقة", "danger")], db)
  else
    match db.users.find? (fun u => u.username == username || u.email == email) with
    | some _ =>
      (.redirect "register" [("اسم المستخدم أو البريد الإلكتروني مستخدم بالفعل", "danger")], db)
    | none =>
      let new_user : DUser :=
        { id := db.nextUserId
          username := username
          email := email
          password := generate_password_hash salt password
          first_name := first_name
          last_name := last_name
          is_admin := false
          loyalty_points := 0
          created_at := clock
          last_login := none }
      (.redirect "login" [("تم إنشاء الحساب بنجاح! يمكنك الآن تسجيل الدخول", "success")],
        { db with users := db.users ++ [new_user], nextUserId := db.nextUserId + 1 })

/-- The authorization check duplicated at the head of each `/admin*` route
(`src/main.py` lines 207-213, 219-225, 232-238): redirect to login when the
session has no `user_id`, redirect home with a denial flash when the id does
not resolve to an admin user; `none` when the guard passes, returning the
resolved user. -/
def admin_guard (db : Db) (sess : Session) : Sum (Resp Empty) DUser :=
  match sess with
  | none => .inl (.redirect "login" [])
  | some uid =>
    match db.users.find? (fun u => u.id == uid) with
    | some user =>
      if user.is_admin then .inr user
      else .inl (.redirect "index" [("غير مصرح لك بالوصول إلى هذه الصفحة", "danger")])
    | none => .inl (.redirect "index" [("غير مصرح لك بالوصول إلى هذه الصفحة", "danger")])

/-- Re-tag a guard failure (which carries no template data) at any payload type. -/
def Resp.ofEmpty : Resp Empty → Resp α
  | .notFound => .notFound
  | .redirect ep fl => .redirect ep fl
  | .render _ d _ => nomatch d

/-- `GET /admin` (`admin_dashboard`, `src/main.py` lines 205-215). -/
def admin_dashboard (db : Db) (sess : Session) : Resp Unit :=
  match admin_guard db sess with
  | .inl r => r.ofEmpty
  | .inr _ => .render "admin_dashboard.html" () []

/-- `GET /admin/products` (`admin_products`, `src/main.py` lines 217-228):
all products, regardless of the active flag. -/
def admin_products (db : Db) (sess : Session) : Resp (List DProduct) :=
  match admin_guard db sess with
  | .inl r => r.ofEmpty
  | .inr _ => .render "admin_products.html" db.products []

/-- Python truthiness of an optional form field value: `None` and the
empty string are falsy, any other string truthy
(`True if request.form.get('is_active') else False`). -/
def formTruthy : Option String → Bool
  | none => false
  | some s => s != ""

/-- HTTP method of a request to `/admin/add_product`. -/
inductive Method where
  | get
  | post
deriving DecidableEq, Repr

/-- `GET|POST /admin/add_product` (`admin_add_product`, `src/main.py`
lines 230-262).  The form's `price` string goes into the row unvalidated
(modelled as the integer it denotes; malformed non-numeric input is out of
scope, the spec leaves it unspecified).  `is_active` is
`True if request.form.get('is_active') else False`: an absent field or an
empty string is falsy. -/
def admin_add_product (db : Db) (sess : Session) (clock : Nat) (method : Method)
    (name : String) (description : Option String) (price : Int)
    (category_id : Option Nat) (is_active_field : Option String) :
    Resp (List DCategory) × Db :=
  match admin_guard db sess with
  | .inl r => (r.ofEmpty, db)
  | .inr _ =>
    match method with
    | .post =>
      let is_active := formTruthy is_active_field
      let new_product : DProduct :=
        { id := db.nextProductId
          name := name
          description := description
          price := price
          file_path := none
          thumbnail := none
          category_id := category_id
          is_active := is_active
          created_at := clock }
      (.redirect "admin_products" [("تم إضافة المنتج بنجاح", "success")],
        { db with products := db.products ++ [new_product],
                  nextProductId := db.nextProductId + 1 })
    | .get => (.render "admin_add_product.html" db.categories [], db)

/-! Concrete data used to exercise the handlers. -/

/-- A product row with the given id, category, active flag and creation time. -/
def mkProd (i : Nat) (cat : Option Nat) (active : Bool) (created : Nat) : DProduct :=
  { id := i
    name := "p" ++ toString i
    description := none
    price := 10
    file_path := none
    thumbnail := none
    category_id := cat
    is_active := active
    created_at := created }

/-- The seeded administrator account (`src/main.py` lines 100-111). -/
def exAdmin : DUser :=
  { id := 1
    username := "admin"
    email := "admin@example.com"
    password := generate_password_hash 4 "admin123"
    first_name := some "Admin"
    last_name := some "User"
    is_admin := true
    loyalty_points := 0
    created_at := 0
    last_login := none }

/-- An ordinary registered (non-admin) user. -/
def exUser : DUser :=
  { id := 2
    username := "u1"
    email := "a@x.com"
    password := generate_password_hash 3 "pw1"
    first_name := none
    last_name := none
    is_admin := false
    loyalty_points := 0
    created_at := 0
    last_login := none }

/-- A small store: the admin, one user, one category (id 1) and one active
product in that category.  No category has id 0. -/
def exDb : Db :=
  { users := [exAdmin, exUser]
    categories := [⟨1, "c1", none⟩]
    products := [mkProd 1 (some 1) true 1]
    nextUserId := 3
    nextProductId := 2 }

/-- A store with nine active products created at times 1..9, so the 8-item
featured list must leave the oldest one out. -/
def exDb9 : Db :=
  { users := []
    categories := []
    products := [mkProd 1 none true 1, mkProd 2 none true 2, mkProd 3 none true 3,
      mkProd 4 none true 4, mkProd 5 none true 5, mkProd 6 none true 6,
      mkProd 7 none true 7, mkProd 8 none true 8, mkProd 9 none true 9]
    nextUserId := 1
    nextProductId := 10 }

/-! Helper lemmas about the password-hash model. -/

theorem splitDollar_eq_some {xs a b : List Char}
    (h : splitDollar xs = some (a, b)) : xs = a ++ '$' :: b := by
  induction xs generalizing a b with
  | nil => simp [splitDollar] at h
  | cons c cs ih =>
    rw [splitDollar] at h
    by_cases hc : c = '$'
    · rw [if_pos hc] at h
      cases h
      simp [hc]
    · rw [if_neg hc] at h
      cases hsp : splitDollar cs with
      | none => rw [hsp] at h; cases h
      | some p =>
        rw [hsp] at h
        cases h
        simpa using ih hsp

theorem splitDollar_append {xs : List Char} (hx : '$' ∉ xs) (ys : List Char) :
    splitDollar (xs ++ '$' :: ys) = some (xs, ys) := by
  induction xs with
  | nil => simp [splitDollar]
  | cons c cs ih =>
    have hc : c ≠ '$' := fun h => hx (h ▸ List.mem_cons_self _ _)
    have hcs : '$' ∉ cs := fun h => hx (List.mem_cons_of_mem _ h)
    simp [splitDollar, hc, ih hcs]

/-- The hash check accepts the hash produced for the same password. -/
theorem check_generate (salt : Nat) (pw : String) :
    check_password_hash (generate_password_hash salt pw) pw = true := by
  have h1 : '$' ∉ "pbkdf2:sha256:600000".data := by decide
  have h2 : '$' ∉ List.replicate salt 's' := by
    intro h
    have := List.eq_of_mem_replicate h
    simp at this
  unfold check_password_hash generate_password_hash
  rw [show (("pbkdf2:sha256:600000" ++ "$" ++ String.mk (List.replicate salt 's') ++ "$"
      ++ pw) : String).data
    = "pbkdf2:sha256:600000".data ++ '$' ::
        (List.replicate salt 's' ++ '$' :: pw.data) by simp]
  rw [splitDollar_append h1]
  dsimp only
  rw [splitDollar_append h2]
  simp

/-- A stored value that is the raw password never verifies: it would have
to be a strict suffix of itself. -/
theorem check_raw (pw : String) : check_password_hash pw pw = false := by
  unfold check_password_hash
  cases h1 : splitDollar pw.data with
  | none => rfl
  | some p =>
    obtain ⟨m, rest⟩ := p
    dsimp only
    cases h2 : splitDollar rest with
    | none => rfl
    | some q =>
      obtain ⟨s, digest⟩ := q
      dsimp only
      have e1 := splitDollar_eq_some h1
      have e2 := splitDollar_eq_some h2
      have hlen : digest.length < pw.data.length := by
        rw [e1, e2]
        simp [List.length_append]
        omega
      have hne : digest ≠ pw.data := fun h => by rw [h] at hlen; omega
      simp [hne]

/-- The produced hash string is never the raw password itself. -/
theorem generate_ne_raw (salt : Nat) (pw : String) :
    generate_password_hash salt pw ≠ pw := by
  intro h
  have h1 := check_generate salt pw
  rw [h, check_raw pw] at h1
  cases h1

/-! Helper lemmas about pagination. -/

/-- A successful page is a ≤12-element selection from the query's rows. -/
theorem paginate_some_spec {l : List α} {page : Int} {s : List α}
    (h : paginate l page = some s) : s.length ≤ 12 ∧ ∀ x ∈ s, x ∈ l := by
  unfold paginate at h
  split at h
  · cases h
  · dsimp only at h
    split at h
    · cases h
    · cases h
      refine ⟨List.length_take_le _ _, fun x hx => ?_⟩
      exact List.mem_of_mem_drop (List.mem_of_mem_take hx)

/-- Page 1 always renders: it is the first 12 rows, never a 404. -/
theorem paginate_one (l : List α) : paginate l 1 = some (l.take 12) := by
  unfold paginate
  norm_num

/-- C1: every request to `/admin`, `/admin/products` and `/admin/add_product`
with no `user_id` in the session redirects to the login page, and with a
`user_id` that does not resolve to an admin user redirects to the home page
with the denial flash; in neither case is admin content rendered or a product
inserted (the database comes back unchanged). -/
theorem admin_routes_guarded (db : Db) (sess : Session) (clock : Nat)
    (method : Method) (name : String) (description : Option String) (price : Int)
    (category_id : Option Nat) (is_active_field : Option String) :
    (sess = none →
      admin_dashboard db sess = .redirect "login" [] ∧
      admin_products db sess = .redirect "login" [] ∧
      admin_add_product db sess clock method name description price category_id
        is_active_field = (.redirect "login" [], db)) ∧
    (∀ uid, sess = some uid →
      (∀ u, db.users.find? (fun x => x.id == uid) = some u → u.is_admin = false) →
      admin_dashboard db sess
        = .redirect "index" [("غير مصرح لك بالوصول إلى هذه الصفحة", "danger")] ∧
      admin_products db sess
        = .redirect "index" [("غير مصرح لك بالوصول إلى هذه الصفحة", "danger")] ∧
      admin_add_product db sess clock method name description price category_id
        is_active_field
        = (.redirect "index" [("غير مصرح لك بالوصول إلى هذه الصفحة", "danger")], db)) := by
  constructor
  · rintro rfl
    exact ⟨rfl, rfl, rfl⟩
  · rintro uid rfl hu
    have hg : admin_guard db (some uid)
        = .inl (.redirect "index" [("غير مصرح لك بالوصول إلى هذه الصفحة", "danger")]) := by
      unfold admin_guard
      dsimp only
      cases hf : db.users.find? (fun x => x.id == uid) with
      | none => rfl
      | some u =>
        dsimp only
        simp [hu u hf]
    refine ⟨?_, ?_, ?_⟩
    · simp [admin_dashboard, hg, Resp.ofEmpty]
    · simp [admin_products, hg, Resp.ofEmpty]
    · cases method <;> simp [admin_add_product, hg, Resp.ofEmpty]

/-- Witness for C1: at the concrete store, an anonymous request to `/admin`
is sent to login and a request with the non-admin user's session to
`/admin/products` is sent home with the denial flash. -/
theorem admin_routes_guarded_witness :
    admin_dashboard exDb none = .redirect "login" [] ∧
    admin_products exDb (some 2)
      = .redirect "index" [("غير مصرح لك بالوصول إلى هذه الصفحة", "danger")] := by
  constructor
  · exact ((admin_routes_guarded exDb none 0 .get "" none 0 none none).1 rfl).1
  · refine ((admin_routes_guarded exDb (some 2) 0 .get "" none 0 none none).2 2 rfl
      (fun u hu => ?_)).2.1
    have h2 : exDb.users.find? (fun x => x.id == 2) = some exUser := rfl
    rw [h2] at hu
    cases hu
    rfl

/-- C2: a register POST rejects (flash, store unchanged) on password mismatch
or when some user already has the submitted username or email — in particular
a duplicate email; otherwise it appends exactly one user whose stored password
is the salted hash of the submitted one (never the raw password) and
redirects to login. -/
theorem register_spec (db : Db) (clock salt : Nat)
    (username email password confirm_password : String)
    (first_name last_name : Option String) :
    (password ≠ confirm_password →
      register_post db clock salt username email password confirm_password
          first_name last_name
        = (.redirect "register" [("كلمات المرور غير متطابقة", "danger")], db)) ∧
    (password = confirm_password →
      (∃ u ∈ db.users, u.username = username ∨ u.email = email) →
      register_post db clock salt username email password confirm_password
          first_name last_name
        = (.redirect "register"
            [("اسم المستخدم أو البريد الإلكتروني مستخدم بالفعل", "danger")], db)) ∧
    (password = confirm_password →
      (∀ u ∈ db.users, u.username ≠ username ∧ u.email ≠ email) →
      register_post db clock salt username email password confirm_password
          first_name last_name
        = (.redirect "login"
            [("تم إنشاء الحساب بنجاح! يمكنك الآن تسجيل الدخول", "success")],
          { db with
              nextUserId := db.nextUserId + 1
              users := (db.users ++ [(⟨db.nextUserId, username, email,
                generate_password_hash salt password, first_name, last_name, false, 0,
                clock, none⟩ : DUser)]) }) ∧
      generate_password_hash salt password ≠ password) := by
  refine ⟨fun hne => ?_, fun heq hex => ?_, fun heq hnone => ?_⟩
  · simp [register_post, hne]
  · subst heq
    obtain ⟨u, hu, hmatch⟩ := hex
    have : (db.users.find? (fun v => v.username == username || v.email == email)).isSome := by
      rw [List.find?_isSome]
      refine ⟨u, hu, ?_⟩
      rcases hmatch with h | h <;> simp [h]
    obtain ⟨v, hv⟩ := Option.isSome_iff_exists.mp this
    simp [register_post, hv]
  · subst heq
    have hfind : db.users.find? (fun v => v.username == username || v.email == email)
        = none := by
      rw [List.find?_eq_none]
      intro u hu
      obtain ⟨h1, h2⟩ := hnone u hu
      simp [h1, h2]
    refine ⟨by simp [register_post, hfind], generate_ne_raw salt password⟩

/-- Witness for C2: registering a second account with the email already held
by the existing user is rejected and the store is unchanged. -/
theorem register_spec_witness :
    register_post exDb 9 2 "newname" "a@x.com" "pw" "pw" none none
      = (.redirect "register"
          [("اسم المستخدم أو البريد الإلكتروني مستخدم بالفعل", "danger")], exDb) :=
  (register_spec exDb 9 2 "newname" "a@x.com" "pw" "pw" none none).2.1 rfl
    ⟨exUser, by decide, Or.inr rfl⟩

/-- C3: a login POST succeeds exactly when the submitted email resolves to a
user whose stored password verifies against the submitted password; on
success the session holds the user's id, the user's `last_login` is stamped
with the clock, and admins are redirected to the dashboard, others home; a
stored value equal to the raw password never verifies, so such a login always
fails. -/
theorem login_spec (db : Db) (sess : Session) (clock : Nat) (email password : String) :
    (∀ u, db.users.find? (fun x => x.email == email) = some u →
      check_password_hash u.password password = true →
      login_post db sess clock email password
        = ((if u.is_admin then Resp.redirect "admin_dashboard" []
            else Resp.redirect "index" []),
           { db with users := (db.users.map (fun v =>
               if v.id == u.id then { v with last_login := some clock } else v)) },
           some u.id)) ∧
    ((∀ u, db.users.find? (fun x => x.email == email) = some u →
        check_password_hash u.password password = false) →
      login_post db sess clock email password
        = (.render "login.html" ()
            [("البريد الإلكتروني أو كلمة المرور غير صحيحة", "danger")], db, sess)) ∧
    (∀ u, db.users.find? (fun x => x.email == email) = some u →
      u.password = password →
      login_post db sess clock email password
        = (.render "login.html" ()
            [("البريد الإلكتروني أو كلمة المرور غير صحيحة", "danger")], db, sess)) := by
  refine ⟨fun u hf hc => ?_, fun hfail => ?_, fun u hf hraw => ?_⟩
  · cases hadm : u.is_admin <;> simp [login_post, hf, hc, hadm]
  · cases hf : db.users.find? (fun x => x.email == email) with
    | none => simp [login_post, hf]
    | some u => simp [login_post, hf, hfail u hf]
  · have hc : check_password_hash u.password password = false := by
      rw [hraw]; exact check_raw password
    simp [login_post, hf, hc]

/-- Witness for C3: the seeded admin logs in with the correct password, the
session is set to id 1, `last_login` is stamped, and the redirect goes to the
admin dashboard. -/
theorem login_spec_witness :
    login_post exDb none 5 "admin@example.com" "admin123"
      = (.redirect "admin_dashboard" [],
         { users := [{ exAdmin with last_login := some 5 }, exUser],
           categories := [⟨1, "c1", none⟩],
           products := [mkProd 1 (some 1) true 1],
           nextUserId := 3, nextProductId := 2 }, some 1) :=
  (login_spec exDb none 5 "admin@example.com" "admin123").1 exAdmin rfl
    (check_generate 4 "admin123")

/-- C9: the two failing login POSTs — unknown email, and known email with a
wrong password — produce identical observable responses (the same generic
flash on the re-rendered login page) and leave store and session untouched,
so the two causes cannot be told apart. -/
theorem login_failure_indistinct (db₁ db₂ : Db) (sess₁ sess₂ : Session)
    (clock₁ clock₂ : Nat) (email₁ password₁ email₂ password₂ : String) (u : DUser)
    (h₁ : db₁.users.find? (fun x => x.email == email₁) = none)
    (h₂ : db₂.users.find? (fun x => x.email == email₂) = some u)
    (hc : check_password_hash u.password password₂ = false) :
    (login_post db₁ sess₁ clock₁ email₁ password₁).1
      = (login_post db₂ sess₂ clock₂ email₂ password₂).1 ∧
    login_post db₁ sess₁ clock₁ email₁ password₁
      = (.render "login.html" ()
          [("البريد الإلكتروني أو كلمة المرور غير صحيحة", "danger")], db₁, sess₁) ∧
    login_post db₂ sess₂ clock₂ email₂ password₂
      = (.render "login.html" ()
          [("البريد الإلكتروني أو كلمة المرور غير صحيحة", "danger")], db₂, sess₂) := by
  refine ⟨?_, ?_, ?_⟩ <;> simp [login_post, h₁, h₂, hc]

/-- Witness for C9: at the concrete store, the response to a login with an
unregistered email equals the response to a login with the registered email
and a wrong password. -/
theorem login_failure_indistinct_witness :
    (login_post exDb none 3 "nobody@x.com" "pw").1
      = (login_post exDb none 4 "a@x.com" "wrong").1 :=
  (login_failure_indistinct exDb exDb none none 3 4 "nobody@x.com" "pw" "a@x.com" "wrong"
    exUser rfl rfl (by decide)).1

/-- C4 counterexample: an authenticated admin POST to add_product with the
form price -5 stores a product whose price is negative — the claimed
non-negativity invariant fails on the code, which validates nothing. -/
theorem add_product_negative_price :
    ((admin_add_product exDb (some 1) 7 .post "x" none (-5) none
        (some "on")).2.products.map (fun p => p.price)) = [10, -5] ∧
    ((admin_add_product exDb (some 1) 7 .post "x" none (-5) none
        (some "on")).2.products.any (fun p => decide (p.price < 0))) = true :=
  ⟨rfl, rfl⟩

/-- C4 (amended): an admin add_product POST appends the product with exactly
the submitted price — no non-negativity (or any other) validation — so the
stored price is non-negative exactly when the submitted one is. -/
theorem add_product_price_verbatim (db : Db) (uid : Nat) (u : DUser) (clock : Nat)
    (name : String) (description : Option String) (price : Int)
    (category_id : Option Nat) (is_active_field : Option String)
    (hf : db.users.find? (fun x => x.id == uid) = some u)
    (ha : u.is_admin = true) :
    (admin_add_product db (some uid) clock .post name description price category_id
        is_active_field).2.products
      = db.products ++ [(⟨db.nextProductId, name, description, price, none, none,
          category_id, formTruthy is_active_field, clock⟩ : DProduct)] := by
  have hg : admin_guard db (some uid) = .inr u := by
    unfold admin_guard
    dsimp only
    simp [hf, ha]
  simp [admin_add_product, hg]

/-- Witness for the amended C4: the concrete POST stores price -5 verbatim. -/
theorem add_product_price_verbatim_witness :
    (admin_add_product exDb (some 1) 7 .post "x" none (-5) none
        (some "on")).2.products
      = exDb.products ++ [(⟨2, "x", none, -5, none, none, none, true, 7⟩ : DProduct)] :=
  add_product_price_verbatim exDb 1 exAdmin 7 "x" none (-5) none (some "on") rfl rfl

/-- C6: with an admin session, `/admin/products` renders ALL products
regardless of the active flag, and after an add_product POST whose
`is_active` field is absent (hence stored inactive) the listing shows the
whole table including the new inactive product. -/
theorem admin_products_lists_all (db : Db) (uid : Nat) (u : DUser) (clock : Nat)
    (name : String) (description : Option String) (price : Int)
    (category_id : Option Nat)
    (hf : db.users.find? (fun x => x.id == uid) = some u)
    (ha : u.is_admin = true) :
    admin_products db (some uid) = .render "admin_products.html" db.products [] ∧
    admin_products
        (admin_add_product db (some uid) clock .post name description price
          category_id none).2 (some uid)
      = .render "admin_products.html"
          (db.products ++ [(⟨db.nextProductId, name, description, price, none, none,
            category_id, false, clock⟩ : DProduct)]) [] := by
  have hg : admin_guard db (some uid) = .inr u := by
    unfold admin_guard
    dsimp only
    simp [hf, ha]
  have hdb : (admin_add_product db (some uid) clock .post name description price
      category_id none).2
      = { db with
            nextProductId := db.nextProductId + 1
            products := (db.products ++ [(⟨db.nextProductId, name, description, price,
              none, none, category_id, false, clock⟩ : DProduct)]) } := by
    simp [admin_add_product, hg, formTruthy]
  constructor
  · simp [admin_products, hg]
  · rw [hdb]
    have hg' : admin_guard { db with
        nextProductId := db.nextProductId + 1
        products := (db.products ++ [(⟨db.nextProductId, name, description, price,
          none, none, category_id, false, clock⟩ : DProduct)]) } (some uid) = .inr u := by
      unfold admin_guard
      dsimp only
      simp [hf, ha]
    simp [admin_products, hg']

/-- Witness for C6: after the concrete inactive add, the admin listing holds
both the old product and the new inactive one. -/
theorem admin_products_lists_all_witness :
    admin_products
        (admin_add_product exDb (some 1) 7 .post "y" none 3 none none).2 (some 1)
      = .render "admin_products.html"
          (exDb.products ++ [(⟨2, "y", none, 3, none, none, none, false, 7⟩ : DProduct)]) [] :=
  (admin_products_lists_all exDb 1 exAdmin 7 "y" none 3 none rfl rfl).2

/-- C5 counterexample: requesting the products list with category 0 — no
category 0 exists in the store — yields a rendered page (not a 404)
containing a product of category 1, so a supplied-but-nonexistent category
id neither restricts the results nor triggers the not-found condition. -/
theorem products_category_filter_counterexample :
    products exDb (some 0) 1
      = .render "products.html" ([mkProd 1 (some 1) true 1], "جميع المنتجات") [] ∧
    products exDb (some 0) 1 ≠ .notFound ∧
    exDb.categories.find? (fun c => Int.ofNat c.id == 0) = none :=
  ⟨rfl, by decide, rfl⟩

/-- C5 (amended): a rendered products page holds at most 12 products, all
active; a NONZERO supplied category restricts the page to that category and
the request 404s when no category with that id exists; a category parameter
of 0 is falsy in Python and is treated as absent, skipping both the filter
and the existence check. -/
theorem products_spec (db : Db) (category : Option Int) (page : Int) :
    (∀ items title,
      products db category page = .render "products.html" (items, title) [] →
      items.length ≤ 12 ∧ ∀ p ∈ items, p.is_active = true) ∧
    (∀ cid, category = some cid → cid ≠ 0 →
      (∀ items title,
        products db category page = .render "products.html" (items, title) [] →
        ∀ p ∈ items, p.category_id.map Int.ofNat = some cid) ∧
      (db.categories.find? (fun c => Int.ofNat c.id == cid) = none →
        products db category page = .notFound)) := by
  cases category with
  | none =>
    refine ⟨fun items title h => ?_, fun cid hc => by cases hc⟩
    simp only [products] at h
    cases hp : paginate (db.products.filter (·.is_active)) page with
    | none => rw [hp] at h; cases h
    | some s =>
      rw [hp] at h
      simp only [Resp.render.injEq, Prod.mk.injEq, true_and, and_true] at h
      obtain ⟨rfl, rfl⟩ := h
      obtain ⟨hlen, hsub⟩ := paginate_some_spec hp
      exact ⟨hlen, fun p hpm => (List.mem_filter.mp (hsub p hpm)).2⟩
  | some cid =>
    by_cases hz : cid = 0
    · subst hz
      refine ⟨fun items title h => ?_, fun cid' hc hne => ?_⟩
      · have hred : products db (some 0) page
            = (match paginate (db.products.filter (·.is_active)) page with
               | none => (Resp.notFound : Resp (List DProduct × String))
               | some its => Resp.render "products.html" (its, "جميع المنتجات") []) := rfl
        rw [hred] at h
        cases hp : paginate (db.products.filter (·.is_active)) page with
        | none => rw [hp] at h; cases h
        | some s =>
          rw [hp] at h
          simp only [Resp.render.injEq, Prod.mk.injEq, true_and, and_true] at h
          obtain ⟨rfl, rfl⟩ := h
          obtain ⟨hlen, hsub⟩ := paginate_some_spec hp
          exact ⟨hlen, fun p hpm => (List.mem_filter.mp (hsub p hpm)).2⟩
      · cases hc
        exact absurd rfl hne
    · have hb : (cid != 0) = true := by simpa using hz
      refine ⟨fun items title h => ?_, fun cid' hc hne => ?_⟩
      · simp only [products, hb, if_true] at h
        cases hp : paginate (db.products.filter
            (fun p => p.is_active && (p.category_id.map Int.ofNat) == some cid)) page with
        | none => rw [hp] at h; cases h
        | some s =>
          rw [hp] at h
          dsimp only at h
          cases hcf : db.categories.find? (fun c => Int.ofNat c.id == cid) with
          | none => rw [hcf] at h; cases h
          | some cat =>
            rw [hcf] at h
            simp only [Resp.render.injEq, Prod.mk.injEq, true_and, and_true] at h
            obtain ⟨rfl, rfl⟩ := h
            obtain ⟨hlen, hsub⟩ := paginate_some_spec hp
            refine ⟨hlen, fun p hpm => ?_⟩
            have hf := (List.mem_filter.mp (hsub p hpm)).2
            simp only [Bool.and_eq_true] at hf
            exact hf.1
      · cases hc
        refine ⟨fun items title h => ?_, fun hcf => ?_⟩
        · simp only [products, hb, if_true] at h
          cases hp : paginate (db.products.filter
              (fun p => p.is_active && (p.category_id.map Int.ofNat) == some cid)) page with
          | none => rw [hp] at h; cases h
          | some s =>
            rw [hp] at h
            dsimp only at h
            cases hcf : db.categories.find? (fun c => Int.ofNat c.id == cid) with
            | none => rw [hcf] at h; cases h
            | some cat =>
              rw [hcf] at h
              simp only [Resp.render.injEq, Prod.mk.injEq, true_and, and_true] at h
              obtain ⟨rfl, rfl⟩ := h
              intro p hpm
              have hf := (List.mem_filter.mp
                ((paginate_some_spec hp).2 p hpm)).2
              simp only [Bool.and_eq_true, beq_iff_eq] at hf
              exact hf.2
        · simp only [products, hb, if_true]
          cases hp : paginate (db.products.filter
              (fun p => p.is_active && (p.category_id.map Int.ofNat) == some cid)) page with
          | none => rfl
          | some s =>
            dsimp only
            rw [hcf]

/-- Witness for the amended C5: on the concrete store, page 1 without a
category renders one active product, and category 2 — which does not
exist — yields a 404. -/
theorem products_spec_witness :
    (mkProd 1 (some 1) true 1).is_active = true ∧
    products exDb (some 2) 1 = .notFound :=
  ⟨((products_spec exDb none 1).1 [mkProd 1 (some 1) true 1] "جميع المنتجات" rfl).2
      (mkProd 1 (some 1) true 1) (List.mem_singleton.mpr rfl),
   ((products_spec exDb (some 2) 1).2 2 rfl (by decide)).2 rfl⟩

/-- C10: a category parameter of 0 is Python-falsy, so the handler takes the
no-category branch: the request behaves exactly like one with no category
parameter at all, and with the default page 1 it renders the unfiltered
active products under the all-products title instead of failing with a 404
— even though no category with id 0 exists. -/
theorem products_category_zero (db : Db) (page : Int) :
    products db (some 0) page = products db none page ∧
    products db (some 0) 1
      = .render "products.html"
          ((db.products.filter (·.is_active)).take 12, "جميع المنتجات") [] := by
  refine ⟨rfl, ?_⟩
  show (match paginate (db.products.filter (·.is_active)) 1 with
        | none => (Resp.notFound : Resp (List DProduct × String))
        | some items => Resp.render "products.html" (items, "جميع المنتجات") []) = _
  rw [paginate_one]

/-- C7: the home page renders exactly the first 8 of the active products in
descending creation order together with ALL categories: at most 8 items,
every one active, ordered newest first, and no unlisted active product is
newer than a listed one. -/
theorem index_spec (db : Db) :
    index db = .render "index.html"
      ((sortByCreatedDesc (db.products.filter (·.is_active))).take 8, db.categories) [] ∧
    ((sortByCreatedDesc (db.products.filter (·.is_active))).take 8).length ≤ 8 ∧
    (∀ p ∈ (sortByCreatedDesc (db.products.filter (·.is_active))).take 8,
      p.is_active = true) ∧
    List.Pairwise (fun a b => b.created_at ≤ a.created_at)
      ((sortByCreatedDesc (db.products.filter (·.is_active))).take 8) ∧
    (∀ p ∈ (sortByCreatedDesc (db.products.filter (·.is_active))).take 8,
      ∀ q ∈ db.products, q.is_active = true →
        q ∉ (sortByCreatedDesc (db.products.filter (·.is_active))).take 8 →
        q.created_at ≤ p.created_at) := by
  have hsorted : List.Pairwise createdDesc
      (sortByCreatedDesc (db.products.filter (·.is_active))) :=
    List.sorted_insertionSort createdDesc (db.products.filter (·.is_active))
  have hperm := List.perm_insertionSort createdDesc (db.products.filter (·.is_active))
  refine ⟨rfl, List.length_take_le _ _, ?_, ?_, ?_⟩
  · intro p hp
    have : p ∈ db.products.filter (·.is_active) :=
      hperm.mem_iff.mp (List.mem_of_mem_take hp)
    exact (List.mem_filter.mp this).2
  · exact hsorted.sublist (List.take_sublist _ _)
  · intro p hp q hq hqa hqn
    have hqs : q ∈ sortByCreatedDesc (db.products.filter (·.is_active)) :=
      hperm.mem_iff.mpr (List.mem_filter.mpr ⟨hq, hqa⟩)
    have hsplit := List.take_append_drop 8
      (sortByCreatedDesc (db.products.filter (·.is_active)))
    have hpw := hsorted
    rw [← hsplit, List.pairwise_append] at hpw
    obtain ⟨-, -, hcross⟩ := hpw
    have hqd : q ∈ (sortByCreatedDesc (db.products.filter (·.is_active))).drop 8 := by
      rcases List.mem_append.mp (by rw [hsplit]; exact hqs) with h | h
      · exact absurd h hqn
      · exact h
    exact hcross p hp q hqd

/-- Witness for C7: in the nine-product store the oldest active product is
left off the 8-item featured list and is indeed no newer than a listed one. -/
theorem index_spec_witness :
    (mkProd 1 none true 1).created_at ≤ (mkProd 9 none true 9).created_at :=
  (index_spec exDb9).2.2.2.2 (mkProd 9 none true 9) (by decide)
    (mkProd 1 none true 1) (by decide) (by decide) (by decide)

/-- C8: product_detail fails with a 404 exactly when no product has the
requested id; otherwise it renders that product with at most 4 related
products, each active, of the same category, and distinct from it. -/
theorem product_detail_spec (db : Db) (product_id : Nat) :
    (db.products.find? (fun p => p.id == product_id) = none ↔
      product_detail db product_id = .notFound) ∧
    (∀ product, db.products.find? (fun p => p.id == product_id) = some product →
      product_detail db product_id = .render "product_detail.html"
        (product, (db.products.filter (fun p => p.category_id == product.category_id
          && p.id != product.id && p.is_active)).take 4) [] ∧
      ((db.products.filter (fun p => p.category_id == product.category_id
          && p.id != product.id && p.is_active)).take 4).length ≤ 4 ∧
      (∀ p ∈ (db.products.filter (fun p => p.category_id == product.category_id
          && p.id != product.id && p.is_active)).take 4,
        p.is_active = true ∧ p.category_id = product.category_id ∧ p.id ≠ product.id)) := by
  constructor
  · cases hf : db.products.find? (fun p => p.id == product_id) with
    | none => simp [product_detail, hf]
    | some u => simp [product_detail, hf]
  · intro product hf
    refine ⟨by simp [product_detail, hf], List.length_take_le _ _, ?_⟩
    intro p hp
    have hmem := (List.mem_filter.mp (List.mem_of_mem_take hp)).2
    simp only [Bool.and_eq_true, beq_iff_eq, bne_iff_ne] at hmem
    exact ⟨hmem.2, hmem.1.1, hmem.1.2⟩

/-- Witness for C8: at the concrete store, id 99 404s and id 1 renders the
product with an empty related list. -/
theorem product_detail_spec_witness :
    product_detail exDb 99 = .notFound ∧
    product_detail exDb 1
      = .render "product_detail.html" (mkProd 1 (some 1) true 1, []) [] :=
  ⟨(product_detail_spec exDb 99).1.mp rfl,
   ((product_detail_spec exDb 1).2 (mkProd 1 (some 1) true 1) rfl).1⟩
